import Mathlib

/-!
Shallow embedding of the Veilon backend proof-orchestration core
(ProofGeneratorService: shield / unshield / transfer proof generation,
local verification, commitment and nullifier-hash derivation).

Modelling conventions:
- FieldElements (decimal strings backed by BigInt in the source) are `Nat`.
- Possibly-undefined JavaScript values are `Option Nat` (`none` = undefined);
  the JS `x || d` default on such values is `Option.getD`.
- The Poseidon hash (an injected, opaque algebraic hash in the source) is an
  abstract parameter `H : List Nat → Nat` applied to the list of arguments.
- `crypto.randomBytes`-backed `randomFieldElement` draws are modelled by an
  environment supply `Nat → Nat` indexed by call order within one operation.
- Filesystem probes (`fs.existsSync` on wasm/zkey/vkey files) and the snarkjs
  backend results are explicit fields of a `ProofEnv` record.
- Thrown JS errors become `Except ProofError`; distinct thrown messages map to
  distinct `ProofError` constructors.
-/

/-- Proof object returned by a generation call: either the structurally
well-formed mock proof built from random bytes (contents never inspected by
any caller) or an opaque real proof from the snarkjs backend. -/
inductive Proof where
  | mockProof : Proof
  | realProof : Nat → Proof
deriving DecidableEq, Repr

/-- Errors thrown by the proof generator, keyed by the distinct messages the
source throws: the explicit unshield guard message, the BigInt TypeError
raised when an undefined value reaches the hash, and the transfer
self-verification failure message. -/
inductive ProofError where
  | missingWitness : ProofError
  | conversionError : ProofError
  | unsoundProof : ProofError
deriving DecidableEq, Repr

/-- Fault channel of the verification routine: an I/O or parse failure while
reading the verification key inside the try block. -/
inductive VerifyFault where
  | vkeyFault : VerifyFault
deriving DecidableEq, Repr

/-- Environment of one operation call: the successive values produced by
randomFieldElement, the existence of the operation's compiled circuit files,
the existence and parseability of its verification key, and the opaque
snarkjs backend results (proof object, public signals, verification verdict). -/
structure ProofEnv where
  supply : Nat → Nat
  wasmExists : Bool
  zkeyExists : Bool
  vkeyExists : Bool
  vkeyParseOk : Bool
  backendProof : Nat
  backendSignals : List (Option Nat)
  backendVerify : Bool

deriving instance DecidableEq for Except

/-- Mock mode is entered when either compiled circuit file is absent. -/
def mockMode (env : ProofEnv) : Bool :=
  !env.wasmExists || !env.zkeyExists

/-- Value of randomFieldElement interpreting the drawn bytes (most significant
first) as an unsigned integer, as BigInt of the hex string does. -/
def beBytesToNat (bytes : List Nat) : Nat :=
  bytes.foldl (fun acc b => acc * 256 + b) 0

/-- randomFieldElement as a function of the 31 bytes drawn from the secure
random source. -/
def randomFieldElement (bytes : List Nat) : Nat :=
  beBytesToNat bytes

/-- Order of the prime field of the proving system (the BN254 scalar field
used by the Poseidon instance and the groth16 circuits). -/
def bn254FieldOrder : Nat :=
  21888242871839275222246405745257275088548364400416034343698204186575808495617

/-- Resolve one optional input: use the supplied value, or draw the next
fresh field element from the supply at counter k. Returns the value and the
updated counter. -/
def resolve (supply : Nat → Nat) (k : Nat) : Option Nat → Nat × Nat
  | some v => (v, k)
  | none => (supply k, k + 1)

/-- Resolve three optional inputs in source order, threading the draw
counter, starting from the first draw of the call. -/
def resolve3 (supply : Nat → Nat) (a b c : Option Nat) : Nat × Nat × Nat :=
  let p1 := resolve supply 0 a
  let p2 := resolve supply p1.2 b
  let p3 := resolve supply p2.2 c
  (p1.1, p2.1, p3.1)

/-- generateCommitment: H(secret, nullifier, randomness). -/
def generateCommitment (H : List Nat → Nat) (secret nullifier randomness : Nat) : Nat :=
  H [secret, nullifier, randomness]

/-- generateNullifierHash: H(nullifier, randomness). -/
def generateNullifierHash (H : List Nat → Nat) (nullifier randomness : Nat) : Nat :=
  H [nullifier, randomness]

/-- Two-argument hash call on possibly-undefined JS values: BigInt conversion
throws a TypeError when an argument is undefined. -/
def hashJS2 (H : List Nat → Nat) (a b : Option Nat) : Except ProofError Nat :=
  match a, b with
  | some x, some y => .ok (H [x, y])
  | _, _ => .error .conversionError

/-- Three-argument hash call on possibly-undefined JS values. -/
def hashJS3 (H : List Nat → Nat) (a b c : Option Nat) : Except ProofError Nat :=
  match a, b, c with
  | some x, some y, some z => .ok (H [x, y, z])
  | _, _, _ => .error .conversionError

/-- Note: the (secret, nullifier, randomness) triple representing one unit of
shielded value. -/
structure Note where
  secret : Nat
  nullifier : Nat
  randomness : Nat
deriving DecidableEq, Repr

/-- Commitment of a Note. -/
def noteCommitment (H : List Nat → Nat) (nt : Note) : Nat :=
  generateCommitment H nt.secret nt.nullifier nt.randomness

/-- NullifierHash of a Note; by construction it reads only the nullifier and
randomness components. -/
def noteNullifierHash (H : List Nat → Nat) (nt : Note) : Nat :=
  generateNullifierHash H nt.nullifier nt.randomness

/-- Caller inputs of generateShieldProof (the ProofInputs interface). -/
structure ShieldInputs where
  amount : Option Nat
  secret : Option Nat
  nullifier : Option Nat
  randomness : Option Nat
  recipient : Option Nat
  commitment : Option Nat
deriving DecidableEq, Repr

/-- Result of generateShieldProof. -/
structure ShieldResult where
  proof : Proof
  publicSignals : List (Option Nat)
  commitment : Nat
  nullifier : Nat
  secret : Nat
  randomness : Nat
deriving DecidableEq, Repr

/-- generateShieldProof: resolves missing secret material from the random
supply in source order, derives the commitment, and returns either the
mock-path result with the hard-coded signal vector or the real-path result
with the backend proof and signals. -/
def generateShieldProof (H : List Nat → Nat) (env : ProofEnv) (inputs : ShieldInputs) :
    Except ProofError ShieldResult :=
  let s := resolve3 env.supply inputs.secret inputs.nullifier inputs.randomness
  let commitment := generateCommitment H s.1 s.2.1 s.2.2
  if mockMode env then
    .ok { proof := Proof.mockProof
          publicSignals := [some commitment, some (inputs.amount.getD 0),
            some (inputs.recipient.getD 0)]
          commitment := commitment
          nullifier := s.2.1
          secret := s.1
          randomness := s.2.2 }
  else
    .ok { proof := Proof.realProof env.backendProof
          publicSignals := env.backendSignals
          commitment := commitment
          nullifier := s.2.1
          secret := s.1
          randomness := s.2.2 }

/-- Caller inputs of generateUnshieldProof (ProofInputs plus the unshield
extension fields). -/
structure UnshieldInputs where
  amount : Option Nat
  secret : Option Nat
  nullifier : Option Nat
  randomness : Option Nat
  recipient : Option Nat
  commitment : Option Nat
  inputAmount : Option Nat
  outputAmount : Option Nat
  changeAmount : Option Nat
  inputCommitment : Option Nat
  changeSecret : Option Nat
  changeNullifier : Option Nat
  changeRandomness : Option Nat
deriving DecidableEq, Repr

/-- Result of generateUnshieldProof. -/
structure UnshieldResult where
  proof : Proof
  publicSignals : List (Option Nat)
  commitment : Nat
  nullifier : Nat
  secret : Nat
  randomness : Nat
  nullifierHash : Nat
  changeCommitment : Nat
  changeSecret : Nat
  changeNullifier : Nat
  changeRandomness : Nat
deriving DecidableEq, Repr

/-- generateUnshieldProof: rejects calls without the spend secrets, always
recomputes the input commitment from them, resolves change secrets from the
supply, and returns the mock 9-signal vector or the real-path backend result. -/
def generateUnshieldProof (H : List Nat → Nat) (env : ProofEnv) (inputs : UnshieldInputs) :
    Except ProofError UnshieldResult :=
  if inputs.secret.isNone || inputs.nullifier.isNone || inputs.randomness.isNone then
    .error .missingWitness
  else
    let s := inputs.secret.getD 0
    let n := inputs.nullifier.getD 0
    let r := inputs.randomness.getD 0
    let inputCommitment := generateCommitment H s n r
    let nullifierHash := generateNullifierHash H n r
    let c := resolve3 env.supply inputs.changeSecret inputs.changeNullifier
      inputs.changeRandomness
    let changeCommitment := generateCommitment H c.1 c.2.1 c.2.2
    if mockMode env then
      .ok { proof := Proof.mockProof
            publicSignals := [some (inputs.outputAmount.getD 0),
              some (inputs.changeAmount.getD 0),
              some (inputs.recipient.getD 0),
              some nullifierHash,
              some inputCommitment,
              some (inputs.outputAmount.getD 0),
              some changeCommitment,
              some (inputs.changeAmount.getD 0),
              some (inputs.recipient.getD 0)]
            commitment := inputCommitment
            nullifier := n
            secret := s
            randomness := r
            nullifierHash := nullifierHash
            changeCommitment := changeCommitment
            changeSecret := c.1
            changeNullifier := c.2.1
            changeRandomness := c.2.2 }
    else
      .ok { proof := Proof.realProof env.backendProof
            publicSignals := env.backendSignals
            commitment := inputCommitment
            nullifier := n
            secret := s
            randomness := r
            nullifierHash := nullifierHash
            changeCommitment := changeCommitment
            changeSecret := c.1
            changeNullifier := c.2.1
            changeRandomness := c.2.2 }

/-- First stage of verifyProof, before the surrounding catch: missing
verification key returns true unconditionally; a key that fails to read or
parse raises; otherwise the backend verdict is returned. -/
def verifyProofAttempt (vkeyExists vkeyParseOk backendVerify : Bool) :
    Except VerifyFault Bool :=
  if vkeyExists = false then .ok true
  else if vkeyParseOk = false then .error .vkeyFault
  else .ok backendVerify

/-- verifyProof: the whole body runs inside a try/catch whose catch branch
returns false, so every fault of the attempt is converted into an ok false. -/
def verifyProof (vkeyExists vkeyParseOk backendVerify : Bool) : Except VerifyFault Bool :=
  match verifyProofAttempt vkeyExists vkeyParseOk backendVerify with
  | .ok b => .ok b
  | .error _ => .ok false

/-- Boolean value an awaiting caller observes from verifyProof (the promise
never rejects). -/
def verifyProofRun (vkeyExists vkeyParseOk backendVerify : Bool) : Bool :=
  match verifyProof vkeyExists vkeyParseOk backendVerify with
  | .ok b => b
  | .error _ => false

/-- Caller inputs of generateTransferProof (ProofInputs plus the transfer
extension fields). -/
structure TransferInputs where
  amount : Option Nat
  secret : Option Nat
  nullifier : Option Nat
  randomness : Option Nat
  recipient : Option Nat
  commitment : Option Nat
  inputCommitment : Option Nat
  inputAmount : Option Nat
  outputAmount : Option Nat
  changeAmount : Option Nat
  inputSecret : Option Nat
  inputNullifier : Option Nat
  inputRandomness : Option Nat
  outputSecret : Option Nat
  outputNullifier : Option Nat
  outputRandomness : Option Nat
  changeSecret : Option Nat
  changeNullifier : Option Nat
  changeRandomness : Option Nat
deriving DecidableEq, Repr

/-- Result of generateTransferProof. -/
structure TransferResult where
  proof : Proof
  publicSignals : List (Option Nat)
  nullifierHash : Option Nat
  outputCommitment : Nat
  changeCommitment : Nat
  changeSecret : Nat
  changeNullifier : Nat
  changeRandomness : Nat
deriving DecidableEq, Repr

/-- generateTransferProof: draws change secrets first, hashes the output note
and the input nullifier material through the undefined-propagating hash
calls, then returns the mock 10-signal vector (copying the caller-supplied
inputCommitment verbatim into position 4) or runs the real backend followed
by the local self-verification, failing when that verification reports
false. -/
def generateTransferProof (H : List Nat → Nat) (env : ProofEnv) (inputs : TransferInputs) :
    Except ProofError TransferResult :=
  let c := resolve3 env.supply inputs.changeSecret inputs.changeNullifier
    inputs.changeRandomness
  match hashJS3 H inputs.outputSecret inputs.outputNullifier inputs.outputRandomness with
  | .error e => .error e
  | .ok calculatedOutputCommitment =>
    let changeCommitment := H [c.1, c.2.1, c.2.2]
    match hashJS2 H inputs.inputNullifier inputs.inputRandomness with
    | .error e => .error e
    | .ok nullifierHash =>
      if mockMode env then
        .ok { proof := Proof.mockProof
              publicSignals := [some (inputs.outputAmount.getD 0),
                some (inputs.changeAmount.getD 0),
                some (inputs.recipient.getD 0),
                some nullifierHash,
                inputs.inputCommitment,
                some calculatedOutputCommitment,
                some (inputs.outputAmount.getD 0),
                some changeCommitment,
                some (inputs.changeAmount.getD 0),
                some (inputs.recipient.getD 0)]
              nullifierHash := some nullifierHash
              outputCommitment := calculatedOutputCommitment
              changeCommitment := changeCommitment
              changeSecret := c.1
              changeNullifier := c.2.1
              changeRandomness := c.2.2 }
      else
        if verifyProofRun env.vkeyExists env.vkeyParseOk env.backendVerify = false then
          .error .unsoundProof
        else
          .ok { proof := Proof.realProof env.backendProof
                publicSignals := env.backendSignals
                nullifierHash := (env.backendSignals[0]?).join
                outputCommitment := calculatedOutputCommitment
                changeCommitment := changeCommitment
                changeSecret := c.1
                changeNullifier := c.2.1
                changeRandomness := c.2.2 }

/-! ## Concrete instances used by the witness theorems -/

/-- Concrete computable stand-in for the Poseidon hash, used to instantiate
witness statements. -/
def hashW : List Nat → Nat :=
  fun l => l.foldl (fun a x => a * 1000003 + x + 1) 1

/-- Concrete random supply used by witness environments. -/
def supplyW : Nat → Nat :=
  fun k => 900 + k

/-- Environment in mock mode (compiled circuit files absent). -/
def envMockW : ProofEnv :=
  { supply := supplyW
    wasmExists := false
    zkeyExists := false
    vkeyExists := false
    vkeyParseOk := true
    backendProof := 5
    backendSignals := []
    backendVerify := true }

/-- Concrete unshield call with every relevant field supplied. -/
def uInW : UnshieldInputs :=
  { amount := none
    secret := some 11
    nullifier := some 12
    randomness := some 13
    recipient := some 77
    commitment := none
    inputAmount := some 100
    outputAmount := some 60
    changeAmount := some 40
    inputCommitment := some 55
    changeSecret := some 21
    changeNullifier := some 22
    changeRandomness := some 23 }

/-! ## Claim theorems -/

/-- C1: every unshield call in mock mode with supplied secret, nullifier,
randomness and declared outputAmount, changeAmount, recipient returns
exactly the 9-element public-signal vector [outputAmount, changeAmount,
recipient, nullifierHash, inputCommitment, outputAmount, changeCommitment,
changeAmount, recipient], with nullifierHash = H(nullifier, randomness),
inputCommitment = H(secret, nullifier, randomness), changeCommitment the
hash of the resolved change secrets, and each echo position identical to its
first occurrence. -/
theorem unshield_mock_public_signals
    (H : List Nat → Nat) (env : ProofEnv) (inputs : UnshieldInputs)
    (s n r out chg rcp cs cn cr : Nat)
    (hs : inputs.secret = some s) (hn : inputs.nullifier = some n)
    (hr : inputs.randomness = some r)
    (hout : inputs.outputAmount = some out) (hchg : inputs.changeAmount = some chg)
    (hrcp : inputs.recipient = some rcp)
    (hc : resolve3 env.supply inputs.changeSecret inputs.changeNullifier
      inputs.changeRandomness = (cs, cn, cr))
    (hmock : mockMode env = true) :
    ∃ res, generateUnshieldProof H env inputs = Except.ok res ∧
      res.publicSignals = [some out, some chg, some rcp,
        some (generateNullifierHash H n r),
        some (generateCommitment H s n r),
        some out,
        some (generateCommitment H cs cn cr),
        some chg, some rcp] ∧
      res.publicSignals[5]? = res.publicSignals[0]? ∧
      res.publicSignals[7]? = res.publicSignals[1]? ∧
      res.publicSignals[8]? = res.publicSignals[2]? := by
  simp [generateUnshieldProof, hs, hn, hr, hout, hchg, hrcp, hc, hmock]

/-- C1 witness: a concrete mock-mode unshield call realizing the theorem. -/
theorem unshield_mock_public_signals_witness :
    ∃ res, generateUnshieldProof hashW envMockW uInW = Except.ok res ∧
      res.publicSignals = [some 60, some 40, some 77,
        some (generateNullifierHash hashW 12 13),
        some (generateCommitment hashW 11 12 13),
        some 60,
        some (generateCommitment hashW 21 22 23),
        some 40, some 77] ∧
      res.publicSignals[5]? = res.publicSignals[0]? ∧
      res.publicSignals[7]? = res.publicSignals[1]? ∧
      res.publicSignals[8]? = res.publicSignals[2]? :=
  unshield_mock_public_signals hashW envMockW uInW 11 12 13 60 40 77 21 22 23
    rfl rfl rfl rfl rfl rfl rfl rfl

/-- Concrete transfer call with every relevant field supplied except the
change secrets, which are left to be drawn freshly. -/
def tInW : TransferInputs :=
  { amount := none
    secret := none
    nullifier := none
    randomness := none
    recipient := some 77
    commitment := none
    inputCommitment := some 55
    inputAmount := some 100
    outputAmount := some 60
    changeAmount := some 40
    inputSecret := some 31
    inputNullifier := some 32
    inputRandomness := some 33
    outputSecret := some 41
    outputNullifier := some 42
    outputRandomness := some 43
    changeSecret := none
    changeNullifier := none
    changeRandomness := none }

/-- C2: every transfer call in mock mode with supplied output secrets, input
spend material and declared amounts/recipient returns exactly the 10-element
public-signal vector [outputAmount, changeAmount, recipient, nullifierHash,
inputCommitment, outputCommitment, outputAmount, changeCommitment,
changeAmount, recipient], with nullifierHash = H(inputNullifier,
inputRandomness), outputCommitment = H(outputSecret, outputNullifier,
outputRandomness), and changeCommitment derived from the freshly drawn
change secrets when none are supplied. -/
theorem transfer_mock_public_signals
    (H : List Nat → Nat) (env : ProofEnv) (inputs : TransferInputs)
    (os onl ord inn inr ic out chg rcp cs cn cr : Nat)
    (hos : inputs.outputSecret = some os) (hon : inputs.outputNullifier = some onl)
    (hor : inputs.outputRandomness = some ord)
    (hin : inputs.inputNullifier = some inn) (hir : inputs.inputRandomness = some inr)
    (hic : inputs.inputCommitment = some ic)
    (hout : inputs.outputAmount = some out) (hchg : inputs.changeAmount = some chg)
    (hrcp : inputs.recipient = some rcp)
    (hc : resolve3 env.supply inputs.changeSecret inputs.changeNullifier
      inputs.changeRandomness = (cs, cn, cr))
    (hmock : mockMode env = true) :
    (∃ res, generateTransferProof H env inputs = Except.ok res ∧
      res.publicSignals = [some out, some chg, some rcp,
        some (generateNullifierHash H inn inr),
        some ic,
        some (generateCommitment H os onl ord),
        some out,
        some (generateCommitment H cs cn cr),
        some chg, some rcp] ∧
      res.nullifierHash = some (generateNullifierHash H inn inr) ∧
      res.outputCommitment = generateCommitment H os onl ord ∧
      res.changeCommitment = generateCommitment H cs cn cr ∧
      res.publicSignals[6]? = res.publicSignals[0]? ∧
      res.publicSignals[8]? = res.publicSignals[1]? ∧
      res.publicSignals[9]? = res.publicSignals[2]?) ∧
    (inputs.changeSecret = none → inputs.changeNullifier = none →
      inputs.changeRandomness = none →
      cs = env.supply 0 ∧ cn = env.supply 1 ∧ cr = env.supply 2) := by
  constructor
  · simp [generateTransferProof, hashJS2, hashJS3, generateNullifierHash,
      generateCommitment, hos, hon, hor, hin, hir, hic, hout, hchg, hrcp, hc, hmock]
  · intro h1 h2 h3
    rw [h1, h2, h3] at hc
    simp [resolve3, resolve] at hc
    exact ⟨hc.1.symm, hc.2.1.symm, hc.2.2.symm⟩

/-- C2 witness: a concrete mock-mode transfer call realizing the theorem, with
change secrets drawn freshly from the supply. -/
theorem transfer_mock_public_signals_witness :
    (∃ res, generateTransferProof hashW envMockW tInW = Except.ok res ∧
      res.publicSignals = [some 60, some 40, some 77,
        some (generateNullifierHash hashW 32 33),
        some 55,
        some (generateCommitment hashW 41 42 43),
        some 60,
        some (generateCommitment hashW 900 901 902),
        some 40, some 77] ∧
      res.nullifierHash = some (generateNullifierHash hashW 32 33) ∧
      res.outputCommitment = generateCommitment hashW 41 42 43 ∧
      res.changeCommitment = generateCommitment hashW 900 901 902 ∧
      res.publicSignals[6]? = res.publicSignals[0]? ∧
      res.publicSignals[8]? = res.publicSignals[1]? ∧
      res.publicSignals[9]? = res.publicSignals[2]?) ∧
    (tInW.changeSecret = none → tInW.changeNullifier = none →
      tInW.changeRandomness = none →
      900 = envMockW.supply 0 ∧ 901 = envMockW.supply 1 ∧ 902 = envMockW.supply 2) :=
  transfer_mock_public_signals hashW envMockW tInW 41 42 43 32 33 55 60 40 77 900 901 902
    rfl rfl rfl rfl rfl rfl rfl rfl rfl rfl rfl

/-- Concrete shield call with secret material left to be drawn freshly. -/
def sInW : ShieldInputs :=
  { amount := some 250
    secret := none
    nullifier := none
    randomness := none
    recipient := some 77
    commitment := none }

/-- C3: every shield call in mock mode with a declared amount and recipient
returns publicSignals = [commitment, amount, recipient] with the commitment
field equal to H(secret, nullifier, randomness) of the secret material
returned in the same result, whether supplied or freshly drawn. -/
theorem shield_mock_result
    (H : List Nat → Nat) (env : ProofEnv) (inputs : ShieldInputs)
    (a rcp sec nul ran : Nat)
    (ha : inputs.amount = some a) (hrcp : inputs.recipient = some rcp)
    (hres : resolve3 env.supply inputs.secret inputs.nullifier inputs.randomness
      = (sec, nul, ran))
    (hmock : mockMode env = true) :
    ∃ res, generateShieldProof H env inputs = Except.ok res ∧
      res.publicSignals = [some (generateCommitment H sec nul ran), some a, some rcp] ∧
      res.commitment = generateCommitment H res.secret res.nullifier res.randomness ∧
      res.secret = sec ∧ res.nullifier = nul ∧ res.randomness = ran := by
  simp [generateShieldProof, ha, hrcp, hres, hmock]

/-- C3 witness: a concrete mock-mode shield call realizing the theorem with
freshly drawn secret material. -/
theorem shield_mock_result_witness :
    ∃ res, generateShieldProof hashW envMockW sInW = Except.ok res ∧
      res.publicSignals = [some (generateCommitment hashW 900 901 902), some 250, some 77] ∧
      res.commitment = generateCommitment hashW res.secret res.nullifier res.randomness ∧
      res.secret = 900 ∧ res.nullifier = 901 ∧ res.randomness = 902 :=
  shield_mock_result hashW envMockW sInW 250 77 900 901 902 rfl rfl rfl rfl

/-- Concrete unshield call with the spend secret absent. -/
def uInMissingW : UnshieldInputs :=
  { amount := none
    secret := none
    nullifier := some 12
    randomness := some 13
    recipient := some 77
    commitment := none
    inputAmount := some 100
    outputAmount := some 60
    changeAmount := some 40
    inputCommitment := none
    changeSecret := some 21
    changeNullifier := some 22
    changeRandomness := some 23 }

/-- Concrete transfer call with the input spend material absent but the
output note secrets supplied. -/
def tInMissingW : TransferInputs :=
  { amount := none
    secret := none
    nullifier := none
    randomness := none
    recipient := some 77
    commitment := none
    inputCommitment := some 55
    inputAmount := some 100
    outputAmount := some 60
    changeAmount := some 40
    inputSecret := none
    inputNullifier := none
    inputRandomness := none
    outputSecret := some 41
    outputNullifier := some 42
    outputRandomness := some 43
    changeSecret := some 21
    changeNullifier := some 22
    changeRandomness := some 23 }

/-- C4 counterexample: a transfer call whose input spend material is absent
fails with the BigInt conversion error raised inside the hash, not with the
missing-witness error the claim asserts. -/
theorem transfer_missing_witness_counterexample :
    generateTransferProof hashW envMockW tInMissingW
      = Except.error ProofError.conversionError ∧
    generateTransferProof hashW envMockW tInMissingW
      ≠ Except.error ProofError.missingWitness := by
  decide

/-- C4 amended: generateUnshieldProof rejects an absent spend secret,
nullifier or randomness with the explicit missing-witness error;
generateTransferProof with absent input spend material also fails, but with
the value-conversion error raised when the undefined value reaches the hash,
never with the missing-witness error; generateShieldProof succeeds on every
input and so never requires spend secrets. -/
theorem spend_witness_error_behavior
    (H : List Nat → Nat) (env : ProofEnv) (uIn : UnshieldInputs) (tIn : TransferInputs)
    (hu : uIn.secret = none ∨ uIn.nullifier = none ∨ uIn.randomness = none)
    (ht : tIn.inputNullifier = none ∨ tIn.inputRandomness = none)
    (hos : tIn.outputSecret.isSome = true) (hon : tIn.outputNullifier.isSome = true)
    (hor : tIn.outputRandomness.isSome = true) :
    generateUnshieldProof H env uIn = Except.error ProofError.missingWitness ∧
    generateTransferProof H env tIn = Except.error ProofError.conversionError ∧
    generateTransferProof H env tIn ≠ Except.error ProofError.missingWitness ∧
    (∀ sIn : ShieldInputs, ∃ res, generateShieldProof H env sIn = Except.ok res) := by
  obtain ⟨os, hos⟩ := Option.isSome_iff_exists.mp hos
  obtain ⟨onl, hon⟩ := Option.isSome_iff_exists.mp hon
  obtain ⟨ord, hor⟩ := Option.isSome_iff_exists.mp hor
  have htr : generateTransferProof H env tIn = Except.error ProofError.conversionError := by
    rcases ht with h | h
    · simp [generateTransferProof, hashJS3, hashJS2, hos, hon, hor, h]
    · cases hnl : tIn.inputNullifier <;>
        simp [generateTransferProof, hashJS3, hashJS2, hos, hon, hor, h, hnl]
  refine ⟨?_, htr, ?_, ?_⟩
  · rcases hu with h | h | h <;> simp [generateUnshieldProof, h]
  · rw [htr]; simp
  · intro sIn
    cases hm : mockMode env <;> simp [generateShieldProof, hm]

/-- C4 amended witness: concrete calls realizing each branch of the amended
behavior. -/
theorem spend_witness_error_behavior_witness :
    generateUnshieldProof hashW envMockW uInMissingW
      = Except.error ProofError.missingWitness ∧
    generateTransferProof hashW envMockW tInMissingW
      = Except.error ProofError.conversionError ∧
    generateTransferProof hashW envMockW tInMissingW
      ≠ Except.error ProofError.missingWitness ∧
    (∃ res, generateShieldProof hashW envMockW sInW = Except.ok res) :=
  have h := spend_witness_error_behavior hashW envMockW uInMissingW tInMissingW
    (Or.inl rfl) (Or.inl rfl) rfl rfl rfl
  ⟨h.1, h.2.1, h.2.2.1, h.2.2.2 sInW⟩

/-- C5 counterexample: with the verification key present but failing to
parse, verifyProof returns the boolean false instead of raising the fault
the claim asserts. -/
theorem verify_parse_failure_counterexample :
    verifyProof true false true = Except.ok false ∧
    verifyProof true false true ≠ Except.error VerifyFault.vkeyFault := by
  decide

/-- C5 amended: verifyProof returns true unconditionally when the
verification key is absent and returns the backend verdict when the key
parses, with an invalid proof yielding false rather than an exception; but a
read or parse failure on the key is caught by the surrounding catch and
returned as false — verifyProof never surfaces a fault to its caller. -/
theorem verify_proof_total_behavior (ve po br : Bool) :
    verifyProof false po br = Except.ok true ∧
    verifyProof true true br = Except.ok br ∧
    verifyProof true false br = Except.ok false ∧
    ∀ f : VerifyFault, verifyProof ve po br ≠ Except.error f := by
  refine ⟨rfl, rfl, rfl, ?_⟩
  intro f
  cases ve <;> cases po <;> simp [verifyProof, verifyProofAttempt]

/-- Environment in real mode (compiled circuit files present) whose backend
verification verdict is false. -/
def envRealW : ProofEnv :=
  { supply := supplyW
    wasmExists := true
    zkeyExists := true
    vkeyExists := true
    vkeyParseOk := true
    backendProof := 5
    backendSignals := [some 9, some 8]
    backendVerify := false }

/-- C6: in real mode the transfer orchestrator self-verifies the fresh proof
and fails with the unsound-proof error exactly when the local verification
reports false, never returning such a proof as a success; the shield and
unshield orchestrators never consult the verification environment at all. -/
theorem transfer_self_verification
    (H : List Nat → Nat) (env : ProofEnv) (inputs : TransferInputs)
    (os onl ord inn inr : Nat)
    (hos : inputs.outputSecret = some os) (hon : inputs.outputNullifier = some onl)
    (hor : inputs.outputRandomness = some ord)
    (hin : inputs.inputNullifier = some inn) (hir : inputs.inputRandomness = some inr)
    (hw : env.wasmExists = true) (hz : env.zkeyExists = true) :
    (verifyProofRun env.vkeyExists env.vkeyParseOk env.backendVerify = false →
      generateTransferProof H env inputs = Except.error ProofError.unsoundProof) ∧
    (verifyProofRun env.vkeyExists env.vkeyParseOk env.backendVerify = true →
      ∃ res, generateTransferProof H env inputs = Except.ok res ∧
        res.proof = Proof.realProof env.backendProof ∧
        res.publicSignals = env.backendSignals) ∧
    (∀ (sIn : ShieldInputs) (v₁ p₁ b₁ v₂ p₂ b₂ : Bool),
      generateShieldProof H
          { env with vkeyExists := v₁, vkeyParseOk := p₁, backendVerify := b₁ } sIn
        = generateShieldProof H
          { env with vkeyExists := v₂, vkeyParseOk := p₂, backendVerify := b₂ } sIn) ∧
    (∀ (uIn : UnshieldInputs) (v₁ p₁ b₁ v₂ p₂ b₂ : Bool),
      generateUnshieldProof H
          { env with vkeyExists := v₁, vkeyParseOk := p₁, backendVerify := b₁ } uIn
        = generateUnshieldProof H
          { env with vkeyExists := v₂, vkeyParseOk := p₂, backendVerify := b₂ } uIn) := by
  refine ⟨?_, ?_, ?_, ?_⟩
  · intro hv
    simp [generateTransferProof, hashJS3, hashJS2, hos, hon, hor, hin, hir,
      mockMode, hw, hz, hv]
  · intro hv
    simp [generateTransferProof, hashJS3, hashJS2, hos, hon, hor, hin, hir,
      mockMode, hw, hz, hv]
  · intro sIn v₁ p₁ b₁ v₂ p₂ b₂
    rfl
  · intro uIn v₁ p₁ b₁ v₂ p₂ b₂
    rfl

/-- C6 witness: a concrete real-mode transfer whose local verification
reports false is rejected with the unsound-proof error. -/
theorem transfer_self_verification_witness :
    generateTransferProof hashW envRealW tInW = Except.error ProofError.unsoundProof :=
  (transfer_self_verification hashW envRealW tInW 41 42 43 32 33
    rfl rfl rfl rfl rfl rfl rfl).1 rfl

/-- Big-endian byte folding is bounded by the capacity of the byte width. -/
theorem be_foldl_lt (bytes : List Nat) : ∀ acc : Nat, (∀ b ∈ bytes, b < 256) →
    List.foldl (fun a b => a * 256 + b) acc bytes < (acc + 1) * 256 ^ bytes.length := by
  induction bytes with
  | nil =>
    intro acc _
    simp only [List.foldl_nil, List.length_nil, pow_zero, mul_one]
    exact Nat.lt_succ_self acc
  | cons x xs ih =>
    intro acc h
    have hx : x < 256 := h x (List.mem_cons_self x xs)
    have hrest : ∀ b ∈ xs, b < 256 := fun b hb => h b (List.mem_cons_of_mem x hb)
    have h1 : List.foldl (fun a b => a * 256 + b) (acc * 256 + x) xs
        < (acc * 256 + x + 1) * 256 ^ xs.length := ih (acc * 256 + x) hrest
    have hb : acc * 256 + x + 1 ≤ (acc + 1) * 256 := by omega
    have h2 : (acc * 256 + x + 1) * 256 ^ xs.length
        ≤ (acc + 1) * 256 ^ (x :: xs).length := by
      rw [List.length_cons, pow_succ]
      calc (acc * 256 + x + 1) * 256 ^ xs.length
          ≤ ((acc + 1) * 256) * 256 ^ xs.length := Nat.mul_le_mul hb (le_refl _)
        _ = (acc + 1) * (256 ^ xs.length * 256) := by ring
    simpa [List.foldl] using lt_of_lt_of_le h1 h2

/-- C7: every value produced by the field-element source from 31 drawn bytes
is below 2 to the 248, hence strictly below the 254-bit prime field order,
so no draw ever requires modular reduction. -/
theorem random_field_element_bound (bytes : List Nat)
    (hlen : bytes.length = 31) (hbytes : ∀ b ∈ bytes, b < 256) :
    randomFieldElement bytes < 2 ^ 248 ∧ randomFieldElement bytes < bn254FieldOrder := by
  have h := be_foldl_lt bytes 0 hbytes
  rw [hlen] at h
  have h2 : (0 + 1) * 256 ^ 31 = 2 ^ 248 := by norm_num
  rw [h2] at h
  have h0 : randomFieldElement bytes = List.foldl (fun a b => a * 256 + b) 0 bytes := rfl
  rw [h0]
  have h3 : (2 : Nat) ^ 248 < bn254FieldOrder := by norm_num [bn254FieldOrder]
  exact ⟨h, lt_trans h h3⟩

/-- C7 witness: the largest possible 31-byte draw stays below the field
order. -/
theorem random_field_element_bound_witness :
    randomFieldElement (List.replicate 31 255) < 2 ^ 248 ∧
    randomFieldElement (List.replicate 31 255) < bn254FieldOrder :=
  random_field_element_bound (List.replicate 31 255) (by simp)
    (by intro b hb; rw [List.eq_of_mem_replicate hb]; norm_num)

/-- Injective encoding of argument lists into naturals, used to instantiate
the collision-free hash hypothesis. -/
def encodeL : List Nat → Nat
  | [] => 0
  | x :: xs => Nat.pair x (encodeL xs) + 1

/-- The list encoding is injective. -/
theorem encodeL_injective : Function.Injective encodeL := by
  intro xs
  induction xs with
  | nil =>
    intro ys h
    cases ys with
    | nil => rfl
    | cons y ys => simp only [encodeL] at h; omega
  | cons x xs ih =>
    intro ys h
    cases ys with
    | nil => simp only [encodeL] at h; omega
    | cons y ys =>
      simp only [encodeL] at h
      have h1 : Nat.pair x (encodeL xs) = Nat.pair y (encodeL ys) := by omega
      have h2 := congrArg Nat.unpair h1
      rw [Nat.unpair_pair, Nat.unpair_pair] at h2
      simp only [Prod.mk.injEq] at h2
      rw [h2.1, ih h2.2]

/-- C8: the nullifier hash of a Note depends only on its nullifier and
randomness, so two Notes sharing those but differing in secret get the same
NullifierHash, while (for a collision-free hash) their Commitments differ. -/
theorem nullifier_hash_independent_of_secret
    (H : List Nat → Nat) (hinj : Function.Injective H)
    (s₁ s₂ n r : Nat) (hne : s₁ ≠ s₂) :
    noteNullifierHash H ⟨s₁, n, r⟩ = noteNullifierHash H ⟨s₂, n, r⟩ ∧
    noteCommitment H ⟨s₁, n, r⟩ ≠ noteCommitment H ⟨s₂, n, r⟩ := by
  refine ⟨rfl, ?_⟩
  intro h
  have h2 := hinj h
  simp at h2
  exact hne h2

/-- C8 witness: concrete Notes sharing nullifier and randomness under the
injective list encoding. -/
theorem nullifier_hash_independent_of_secret_witness :
    noteNullifierHash encodeL ⟨1, 3, 4⟩ = noteNullifierHash encodeL ⟨2, 3, 4⟩ ∧
    noteCommitment encodeL ⟨1, 3, 4⟩ ≠ noteCommitment encodeL ⟨2, 3, 4⟩ :=
  nullifier_hash_independent_of_secret encodeL encodeL_injective 1 2 3 4 (by decide)

/-- Concrete transfer call identical to the standard one but with the
inputCommitment field omitted by the caller. -/
def tInNoCommitW : TransferInputs :=
  { tInW with inputCommitment := none }

/-- C9: in the transfer mock path the inputCommitment public signal at
position 4 is the caller-supplied field copied verbatim, never recomputed or
checked; the call succeeds for any value of that field, including an omitted
one, in which case the 10-element vector carries the undefined value there. -/
theorem transfer_input_commitment_passthrough
    (H : List Nat → Nat) (env : ProofEnv) (inputs : TransferInputs)
    (os onl ord inn inr : Nat)
    (hos : inputs.outputSecret = some os) (hon : inputs.outputNullifier = some onl)
    (hor : inputs.outputRandomness = some ord)
    (hin : inputs.inputNullifier = some inn) (hir : inputs.inputRandomness = some inr)
    (hmock : mockMode env = true) :
    ∃ res, generateTransferProof H env inputs = Except.ok res ∧
      res.publicSignals.length = 10 ∧
      res.publicSignals[4]? = some inputs.inputCommitment := by
  simp [generateTransferProof, hashJS3, hashJS2, hos, hon, hor, hin, hir, hmock]

/-- C9 witness: a concrete mock-mode transfer call omitting inputCommitment
still succeeds and carries the undefined value at position 4. -/
theorem transfer_input_commitment_passthrough_witness :
    (∃ res, generateTransferProof hashW envMockW tInNoCommitW = Except.ok res ∧
      res.publicSignals.length = 10 ∧
      res.publicSignals[4]? = some tInNoCommitW.inputCommitment) ∧
    tInNoCommitW.inputCommitment = none :=
  ⟨transfer_input_commitment_passthrough hashW envMockW tInNoCommitW 41 42 43 32 33
    rfl rfl rfl rfl rfl rfl, rfl⟩

/-- C10: generateUnshieldProof ignores any caller-supplied inputCommitment
field entirely, always recomputing the input commitment from the supplied
spend secrets; that recomputed value is the returned commitment field and,
in mock mode, the inputCommitment public signal at position 4. -/
theorem unshield_recomputes_input_commitment
    (H : List Nat → Nat) (env : ProofEnv) (inputs : UnshieldInputs)
    (s n r : Nat)
    (hs : inputs.secret = some s) (hn : inputs.nullifier = some n)
    (hr : inputs.randomness = some r) :
    (∀ ic₁ ic₂ : Option Nat,
      generateUnshieldProof H env { inputs with inputCommitment := ic₁ }
        = generateUnshieldProof H env { inputs with inputCommitment := ic₂ }) ∧
    (∃ res, generateUnshieldProof H env inputs = Except.ok res ∧
      res.commitment = generateCommitment H s n r ∧
      (mockMode env = true →
        res.publicSignals[4]? = some (some (generateCommitment H s n r)))) := by
  constructor
  · intro ic₁ ic₂
    rfl
  · cases hm : mockMode env with
    | false => simp [generateUnshieldProof, hs, hn, hr, hm]
    | true => simp [generateUnshieldProof, hs, hn, hr, hm]

/-- C10 witness: a concrete unshield call whose result is unchanged when the
inputCommitment field is altered and whose returned commitment is the hash
of the supplied spend secrets. -/
theorem unshield_recomputes_input_commitment_witness :
    (generateUnshieldProof hashW envMockW { uInW with inputCommitment := some 123 }
      = generateUnshieldProof hashW envMockW { uInW with inputCommitment := none }) ∧
    (∃ res, generateUnshieldProof hashW envMockW uInW = Except.ok res ∧
      res.commitment = generateCommitment hashW 11 12 13 ∧
      (mockMode envMockW = true →
        res.publicSignals[4]? = some (some (generateCommitment hashW 11 12 13)))) :=
  have h := unshield_recomputes_input_commitment hashW envMockW uInW 11 12 13 rfl rfl rfl
  ⟨h.1 (some 123) none, h.2⟩
